import Mathlib

/-!
Verification of the go-mail contact-form gateway (main.go) against its
specification. The Go program is shallowly embedded: pure helpers become Lean
functions, the HTTP handler becomes a function from its inputs (loaded
configuration, referer header, decoded body, provider send outcome) to the
response it writes together with the list of dispatcher invocations it makes,
and the configuration bootstrap becomes explicit passing of the file-system
and environment state.
-/

namespace GoMail

/-- The `config` struct of main.go: provider domain, private API key, public
validation key, destination address and the referer allow-list. -/
structure Config where
  domain : String
  privateAPIKey : String
  publicValidationKey : String
  toAddress : String
  referers : List String
deriving Repr, DecidableEq

/-- The `message` struct of main.go: a decoded contact-form submission. -/
structure Message where
  name : String
  email : String
  message : String
  honeypot : String
deriving Repr, DecidableEq

/-- One invocation of `srv.sendMessage`, recording the four string arguments
it was given (sender, subject, body, recipient). -/
structure DispatchCall where
  sender : String
  subject : String
  body : String
  recipient : String
deriving Repr, DecidableEq

/-- An HTTP response as the handler writes it: status code, the headers set on
the response writer, and the body text. -/
structure Response where
  status : Nat
  headers : List (String × String)
  body : String
deriving Repr, DecidableEq

/-- The `Access-Control-Allow-Origin: *` header, set on every branch. -/
def corsHeader : String × String := ("Access-Control-Allow-Origin", "*")

/-- The `X-Content-Type-Options: nosniff` header. -/
def nosniffHeader : String × String := ("X-Content-Type-Options", "nosniff")

/-- The 500 response of `mailHandler`: CORS header only, body is
`http.StatusText(http.StatusInternalServerError)`. -/
def internalServerErrorResponse : Response :=
  ⟨500, [corsHeader], "Internal Server Error"⟩

/-- The 403 response of `mailHandler`: CORS header only, body is
`http.StatusText(http.StatusForbidden)`. -/
def forbiddenResponse : Response :=
  ⟨403, [corsHeader], "Forbidden"⟩

/-- The `StatusOK` tail of `mailHandler`: content type, CORS and nosniff
headers, body `{"status":"ok"}`. -/
def statusOKResponse : Response :=
  ⟨200, [("Content-Type", "application/json"), corsHeader, nosniffHeader],
    "\x7b\"status\":\"ok\"\x7d"⟩

/-- The response of the `OPTIONS /` route registered in `main`. -/
def optionsResponse : Response :=
  ⟨200, [("Access-Control-Allow-Headers", "Content-Type"),
         ("Access-Control-Allow-Methods", "POST"),
         corsHeader,
         ("Content-Type", "application/json"),
         nosniffHeader],
    "\x7b\"status\":\"ok\"\x7d"⟩

/-- `containsString` of main.go: linear scan for an equal element. -/
def containsString : List String → String → Bool
  | [], _ => false
  | vv :: rest, v => if vv = v then true else containsString rest v

/-- The tail of `mailHandler` after the nil-config and referer guards: JSON
decoding (modelled by `decoded : Option Message`, `none` when
`json.NewDecoder(r.Body).Decode` fails), the honeypot check, and the dispatch
through `sendMessage` (whose provider outcome is modelled by `send`, which
returns `true` when `mg.Send` succeeds). The returned list records every
`sendMessage` invocation with its arguments. -/
def handleDecoded (c : Config) (decoded : Option Message)
    (send : String → String → String → String → Bool) :
    Response × List DispatchCall :=
  match decoded with
  | none => (internalServerErrorResponse, [])
  | some m =>
    if m.honeypot != "" then
      (statusOKResponse, [])
    else
      if send m.email m.name m.message c.toAddress then
        (statusOKResponse, [⟨m.email, m.name, m.message, c.toAddress⟩])
      else
        (internalServerErrorResponse, [⟨m.email, m.name, m.message, c.toAddress⟩])

/-- `srv.mailHandler` of main.go. Inputs: the loaded configuration `s.c`
(`none` models a nil pointer), the request referer header `r.Referer()` (the
empty string when the header is absent), the decode outcome of the body, and
the provider send outcome. Output: the response written and the list of
`sendMessage` invocations made. -/
def mailHandler (c : Option Config) (referer : String) (decoded : Option Message)
    (send : String → String → String → String → Bool) :
    Response × List DispatchCall :=
  match c with
  | none => (internalServerErrorResponse, [])
  | some cfg =>
    if cfg.referers.length != 0 && !containsString cfg.referers referer then
      (forbiddenResponse, [])
    else
      handleDecoded cfg decoded send

/-- The Go zero value of `config`: empty strings and a nil slice. -/
def zeroConfig : Config := ⟨"", "", "", "", []⟩

/-- `srv.loadConfigFromFile` of main.go. The file system is modelled by
`file : Option String` (`none` when `os.Open` or `ioutil.ReadAll` fails) and
`json.Unmarshal` by `parse : String → Config × Bool`, returning the struct it
filled in and whether it reported an error (`true` = error). The result is
the new `s.c` together with the method's returned error flag. Faithful to
the source, the `json.Unmarshal` error is discarded: whenever the file is
readable the method stores whatever `parse` produced and reports success. -/
def loadConfigFromFile (file : Option String) (parse : String → Config × Bool) :
    Option Config × Bool :=
  match file with
  | none => (none, true)
  | some content => (some (parse content).1, false)

/-- `strings.Split` with separator `","` over the character list: splitting
the empty string yields the one-element list containing the empty string. -/
def splitCommaChars : List Char → List String
  | [] => [""]
  | c :: rest =>
    if c = ',' then
      "" :: splitCommaChars rest
    else
      match splitCommaChars rest with
      | hd :: tl => String.mk (c :: hd.data) :: tl
      | [] => [String.mk [c]]

/-- `strings.Split(s, ",")` as used on the `REFERERS` environment variable. -/
def splitComma (s : String) : List String :=
  splitCommaChars s.data

/-- The environment variables read by `loadConfigFromEnv`; an unset variable
is the empty string, as with `os.Getenv`. -/
structure Env where
  mgdomain : String
  mgprivatekey : String
  mgpublickey : String
  toaddress : String
  referers : String
deriving Repr, DecidableEq

/-- `srv.loadConfigFromEnv` of main.go: build a config from the environment,
splitting `REFERERS` on commas (`strings.Split`), and reject it — leaving
`s.c` nil — when any of the four required fields is empty. The result is the
new `s.c`; the method returns an error exactly when the result is `none`. -/
def loadConfigFromEnv (e : Env) : Option Config :=
  let c : Config :=
    ⟨e.mgdomain, e.mgprivatekey, e.mgpublickey, e.toaddress, splitComma e.referers⟩
  if c.domain == "" || c.privateAPIKey == "" || c.publicValidationKey == "" ||
      c.toAddress == "" then
    none
  else
    some c

/-- The configuration bootstrap in `main`: try `loadConfigFromFile ".config"`
and fall back to `loadConfigFromEnv` only when the file load returned an
error. The result is the `s.c` the server runs with. -/
def loadConfig (file : Option String) (parse : String → Config × Bool) (e : Env) :
    Option Config :=
  match loadConfigFromFile file parse with
  | (c, false) => c
  | (_, true) => loadConfigFromEnv e

/-- Every response written by `mailHandler` is one of the three literal
responses appearing in its branches. -/
theorem mailHandler_response_cases (c : Option Config) (referer : String)
    (decoded : Option Message) (send : String → String → String → String → Bool) :
    (mailHandler c referer decoded send).1 = internalServerErrorResponse ∨
    (mailHandler c referer decoded send).1 = forbiddenResponse ∨
    (mailHandler c referer decoded send).1 = statusOKResponse := by
  rcases c with _ | cfg
  · exact Or.inl rfl
  · simp only [mailHandler]
    split
    · exact Or.inr (Or.inl rfl)
    · rcases decoded with _ | m
      · exact Or.inl rfl
      · simp only [handleDecoded]
        by_cases hhp : (m.honeypot != "") = true
        · rw [if_pos hhp]
          exact Or.inr (Or.inr rfl)
        · rw [if_neg hhp]
          by_cases hs : send m.email m.name m.message cfg.toAddress = true
          · rw [if_pos hs]
            exact Or.inr (Or.inr rfl)
          · rw [if_neg hs]
            exact Or.inl rfl

/-- When the referer guard passes (empty allow-list or listed referer), the
handler with a present configuration runs the decode/honeypot/dispatch tail. -/
theorem mailHandler_passes_guard (cfg : Config) (referer : String)
    (decoded : Option Message) (send : String → String → String → String → Bool)
    (hre : cfg.referers = [] ∨ containsString cfg.referers referer = true) :
    mailHandler (some cfg) referer decoded send = handleDecoded cfg decoded send := by
  rcases hre with h | h <;> simp [mailHandler, h]

/-- C1: the handler does return 500 without dispatching when the configuration
is absent (nil), but not when it is present and incomplete: evaluating the code
at a present configuration whose private API key and public validation key are
both empty (as a file-loaded configuration can be), an ordinary request is
dispatched with the partial credentials and answered 200, contradicting the
fail-fast invariant. -/
theorem C1_incomplete_config_still_dispatches :
    mailHandler none "" (some ⟨"Jane", "jane@x.com", "hi", ""⟩) (fun _ _ _ _ => true)
        = (internalServerErrorResponse, []) ∧
    mailHandler (some ⟨"example.com", "", "", "dest@example.com", []⟩) ""
        (some ⟨"Jane", "jane@x.com", "hi", ""⟩) (fun _ _ _ _ => true)
        = (statusOKResponse, [⟨"jane@x.com", "Jane", "hi", "dest@example.com"⟩]) :=
  ⟨rfl, rfl⟩

/-- C2: with configuration present and a non-empty allow-list, a referer not in
the list yields the 403 response with no dispatch, and a listed referer lets
processing proceed to the decode/honeypot/dispatch tail. -/
theorem C2_nonempty_allowlist_gates_request (cfg : Config) (referer : String)
    (decoded : Option Message) (send : String → String → String → String → Bool)
    (hne : cfg.referers ≠ []) :
    (containsString cfg.referers referer = false →
      mailHandler (some cfg) referer decoded send = (forbiddenResponse, [])) ∧
    (containsString cfg.referers referer = true →
      mailHandler (some cfg) referer decoded send = handleDecoded cfg decoded send) := by
  have hlen : cfg.referers.length ≠ 0 := by
    simpa [List.length_eq_zero] using hne
  constructor <;> intro h <;> simp [mailHandler, h, hlen]

/-- Witness for C2 at a concrete configuration and referers. -/
theorem C2_nonempty_allowlist_gates_request_witness :
    mailHandler (some ⟨"d", "k", "p", "t", ["https://ok.example/"]⟩) "https://evil.example/"
        none (fun _ _ _ _ => true) = (forbiddenResponse, []) ∧
    mailHandler (some ⟨"d", "k", "p", "t", ["https://ok.example/"]⟩) "https://ok.example/"
        none (fun _ _ _ _ => true)
        = handleDecoded ⟨"d", "k", "p", "t", ["https://ok.example/"]⟩ none
            (fun _ _ _ _ => true) :=
  ⟨(C2_nonempty_allowlist_gates_request ⟨"d", "k", "p", "t", ["https://ok.example/"]⟩
      "https://evil.example/" none (fun _ _ _ _ => true) (by decide)).1 rfl,
   (C2_nonempty_allowlist_gates_request ⟨"d", "k", "p", "t", ["https://ok.example/"]⟩
      "https://ok.example/" none (fun _ _ _ _ => true) (by decide)).2 rfl⟩

/-- C3: with configuration present and an empty allow-list, every request
proceeds to the decode/honeypot/dispatch tail whatever its referer; the origin
check can produce no 403. -/
theorem C3_empty_allowlist_admits_all (cfg : Config) (referer : String)
    (decoded : Option Message) (send : String → String → String → String → Bool)
    (h : cfg.referers = []) :
    mailHandler (some cfg) referer decoded send = handleDecoded cfg decoded send := by
  simp [mailHandler, h]

/-- Witness for C3 at a concrete configuration and an arbitrary referer. -/
theorem C3_empty_allowlist_admits_all_witness :
    mailHandler (some ⟨"d", "k", "p", "t", []⟩) "https://anywhere.example/" none
        (fun _ _ _ _ => true)
      = handleDecoded ⟨"d", "k", "p", "t", []⟩ none (fun _ _ _ _ => true) :=
  C3_empty_allowlist_admits_all ⟨"d", "k", "p", "t", []⟩ "https://anywhere.example/" none
    (fun _ _ _ _ => true) rfl

/-- C4: a decoded message with a non-empty honeypot field yields the 200
response with body status ok, and the dispatcher is never invoked. -/
theorem C4_honeypot_skips_dispatch (cfg : Config) (referer : String) (m : Message)
    (send : String → String → String → String → Bool)
    (hre : cfg.referers = [] ∨ containsString cfg.referers referer = true)
    (hhp : m.honeypot ≠ "") :
    mailHandler (some cfg) referer (some m) send = (statusOKResponse, []) := by
  rw [mailHandler_passes_guard cfg referer (some m) send hre]
  simp [handleDecoded, hhp]

/-- Witness for C4 at a concrete bot submission. -/
theorem C4_honeypot_skips_dispatch_witness :
    mailHandler (some ⟨"d", "k", "p", "t", []⟩) "" (some ⟨"bot", "b@x", "spam", "filled"⟩)
        (fun _ _ _ _ => true) = (statusOKResponse, []) :=
  C4_honeypot_skips_dispatch ⟨"d", "k", "p", "t", []⟩ "" ⟨"bot", "b@x", "spam", "filled"⟩
    (fun _ _ _ _ => true) (Or.inl rfl) (by decide)

/-- C5: when the body fails to decode, no dispatch happens on any branch, and
when the configuration is present and the referer guard passes the response is
the 500 server error. -/
theorem C5_decode_failure_500_no_dispatch (c : Option Config) (referer : String)
    (send : String → String → String → String → Bool) :
    (mailHandler c referer none send).2 = [] ∧
    (∀ cfg : Config, c = some cfg →
      (cfg.referers = [] ∨ containsString cfg.referers referer = true) →
      mailHandler c referer none send = (internalServerErrorResponse, [])) := by
  constructor
  · rcases c with _ | cfg
    · rfl
    · simp only [mailHandler]
      split
      · rfl
      · rfl
  · intro cfg hc hre
    subst hc
    rw [mailHandler_passes_guard cfg referer none send hre]
    rfl

/-- Witness for C5 at a concrete configuration. -/
theorem C5_decode_failure_500_no_dispatch_witness :
    mailHandler (some ⟨"d", "k", "p", "t", []⟩) "" none (fun _ _ _ _ => true)
      = (internalServerErrorResponse, []) :=
  (C5_decode_failure_500_no_dispatch (some ⟨"d", "k", "p", "t", []⟩) ""
    (fun _ _ _ _ => true)).2 ⟨"d", "k", "p", "t", []⟩ rfl (Or.inl rfl)

/-- C6 counterexample: the 500 response written when the configuration is
absent carries the CORS header but not the X-Content-Type-Options header, so
not every response sets both. -/
theorem C6_error_response_lacks_nosniff :
    nosniffHeader ∉ (mailHandler none "" none (fun _ _ _ _ => true)).1.headers := by
  decide

/-- C6 amended: every response sets Access-Control-Allow-Origin star; the
X-Content-Type-Options header is set on every 200 response of POST /mail and
on the OPTIONS / response, but not on the 403/500 error responses. -/
theorem C6_cors_always_nosniff_on_success (c : Option Config) (referer : String)
    (decoded : Option Message) (send : String → String → String → String → Bool) :
    corsHeader ∈ (mailHandler c referer decoded send).1.headers ∧
    ((mailHandler c referer decoded send).1.status = 200 →
      nosniffHeader ∈ (mailHandler c referer decoded send).1.headers) ∧
    corsHeader ∈ optionsResponse.headers ∧
    nosniffHeader ∈ optionsResponse.headers := by
  refine ⟨?_, ?_, by decide, by decide⟩
  · rcases mailHandler_response_cases c referer decoded send with h | h | h <;>
      rw [h] <;> decide
  · intro h200
    rcases mailHandler_response_cases c referer decoded send with h | h | h <;>
        rw [h] at h200 ⊢
    · exact absurd h200 (by decide)
    · exact absurd h200 (by decide)
    · decide

/-- Witness for C6 amended on the honeypot 200 branch. -/
theorem C6_cors_always_nosniff_on_success_witness :
    nosniffHeader ∈ (mailHandler (some ⟨"d", "k", "p", "t", []⟩) ""
        (some ⟨"n", "e", "m", "hp"⟩) (fun _ _ _ _ => true)).1.headers :=
  (C6_cors_always_nosniff_on_success (some ⟨"d", "k", "p", "t", []⟩) ""
    (some ⟨"n", "e", "m", "hp"⟩) (fun _ _ _ _ => true)).2.1 rfl

/-- C7: evaluating the bootstrap: a missing file does fall back to the
environment, but a readable file with malformed content does not — the
json.Unmarshal error is discarded, the zero-value configuration is kept and
the loader reports success, so the environment fallback never runs. -/
theorem C7_malformed_file_does_not_fall_back :
    loadConfig none (fun _ => (zeroConfig, true))
        ⟨"example.com", "key-priv", "key-pub", "dest@example.com", ""⟩
        = some ⟨"example.com", "key-priv", "key-pub", "dest@example.com", [""]⟩ ∧
    loadConfig (some "not json") (fun _ => (zeroConfig, true))
        ⟨"example.com", "key-priv", "key-pub", "dest@example.com", ""⟩
        = some zeroConfig ∧
    loadConfigFromEnv ⟨"example.com", "key-priv", "key-pub", "dest@example.com", ""⟩
        = some ⟨"example.com", "key-priv", "key-pub", "dest@example.com", [""]⟩ :=
  ⟨rfl, rfl, rfl⟩

/-- C8: loading from the environment returns no configuration when any of the
four required variables is empty, and returns exactly the given values (with
the comma-split referers) when all four are non-empty. -/
theorem C8_env_requires_all_fields (e : Env) :
    ((e.mgdomain = "" ∨ e.mgprivatekey = "" ∨ e.mgpublickey = "" ∨ e.toaddress = "") →
      loadConfigFromEnv e = none) ∧
    (e.mgdomain ≠ "" → e.mgprivatekey ≠ "" → e.mgpublickey ≠ "" → e.toaddress ≠ "" →
      loadConfigFromEnv e =
        some ⟨e.mgdomain, e.mgprivatekey, e.mgpublickey, e.toaddress,
          splitComma e.referers⟩) := by
  constructor
  · intro h
    rcases h with h | h | h | h <;> simp [loadConfigFromEnv, h]
  · intro h1 h2 h3 h4
    simp [loadConfigFromEnv, h1, h2, h3, h4]

/-- Witness for C8 at a missing-field environment and at a complete one. -/
theorem C8_env_requires_all_fields_witness :
    loadConfigFromEnv ⟨"", "k", "p", "t", ""⟩ = none ∧
    loadConfigFromEnv ⟨"d", "k", "p", "t", "a,b"⟩
      = some ⟨"d", "k", "p", "t", ["a", "b"]⟩ :=
  ⟨(C8_env_requires_all_fields ⟨"", "k", "p", "t", ""⟩).1 (Or.inl rfl),
   (C8_env_requires_all_fields ⟨"d", "k", "p", "t", "a,b"⟩).2 (by decide) (by decide)
     (by decide) (by decide)⟩

/-- C9: with configuration present, the referer guard passed and an empty
honeypot, the dispatcher is invoked exactly once with sender = email, subject
= name, body = message and recipient = the configured destination; the
response is 200 when the send succeeds and 500 when it fails. -/
theorem C9_dispatches_exactly_once (cfg : Config) (referer : String) (m : Message)
    (send : String → String → String → String → Bool)
    (hre : cfg.referers = [] ∨ containsString cfg.referers referer = true)
    (hhp : m.honeypot = "") :
    (mailHandler (some cfg) referer (some m) send).2
        = [⟨m.email, m.name, m.message, cfg.toAddress⟩] ∧
    (send m.email m.name m.message cfg.toAddress = true →
      mailHandler (some cfg) referer (some m) send
        = (statusOKResponse, [⟨m.email, m.name, m.message, cfg.toAddress⟩])) ∧
    (send m.email m.name m.message cfg.toAddress = false →
      mailHandler (some cfg) referer (some m) send
        = (internalServerErrorResponse, [⟨m.email, m.name, m.message, cfg.toAddress⟩])) := by
  rw [mailHandler_passes_guard cfg referer (some m) send hre]
  have hhd : handleDecoded cfg (some m) send =
      if send m.email m.name m.message cfg.toAddress then
        (statusOKResponse, [⟨m.email, m.name, m.message, cfg.toAddress⟩])
      else
        (internalServerErrorResponse, [⟨m.email, m.name, m.message, cfg.toAddress⟩]) := by
    simp [handleDecoded, hhp]
  rw [hhd]
  by_cases hs : send m.email m.name m.message cfg.toAddress = true <;> simp [hs]

/-- Witness for C9 at the end-to-end example submission. -/
theorem C9_dispatches_exactly_once_witness :
    mailHandler (some ⟨"d", "k", "p", "to@x.com", []⟩) ""
        (some ⟨"Jane", "jane@x.com", "hi", ""⟩) (fun _ _ _ _ => true)
      = (statusOKResponse, [⟨"jane@x.com", "Jane", "hi", "to@x.com"⟩]) :=
  (C9_dispatches_exactly_once ⟨"d", "k", "p", "to@x.com", []⟩ ""
    ⟨"Jane", "jane@x.com", "hi", ""⟩ (fun _ _ _ _ => true) (Or.inl rfl) rfl).2.1 rfl

/-- C10: with REFERERS unset (empty) and the four required variables set, the
environment loader produces the one-element allow-list containing the empty
string; the list is non-empty, so only requests whose referer is exactly the
empty string proceed and all others receive 403. -/
theorem C10_unset_referers_blocks_nonempty (e : Env) (referer : String)
    (decoded : Option Message) (send : String → String → String → String → Bool)
    (hr : e.referers = "") (h1 : e.mgdomain ≠ "") (h2 : e.mgprivatekey ≠ "")
    (h3 : e.mgpublickey ≠ "") (h4 : e.toaddress ≠ "") :
    loadConfigFromEnv e
        = some ⟨e.mgdomain, e.mgprivatekey, e.mgpublickey, e.toaddress, [""]⟩ ∧
    (referer ≠ "" →
      mailHandler (some ⟨e.mgdomain, e.mgprivatekey, e.mgpublickey, e.toaddress, [""]⟩)
          referer decoded send = (forbiddenResponse, [])) ∧
    (referer = "" →
      mailHandler (some ⟨e.mgdomain, e.mgprivatekey, e.mgpublickey, e.toaddress, [""]⟩)
          referer decoded send
        = handleDecoded ⟨e.mgdomain, e.mgprivatekey, e.mgpublickey, e.toaddress, [""]⟩
            decoded send) := by
  refine ⟨?_, ?_, ?_⟩
  · simp [loadConfigFromEnv, h1, h2, h3, h4, hr, splitComma, splitCommaChars]
  · intro hne
    have h0 : ¬ ("" = referer) := fun hx => hne hx.symm
    have hcs : containsString [""] referer = false := by
      simp [containsString, h0]
    simp [mailHandler, hcs]
  · intro hemp
    subst hemp
    simp [mailHandler, containsString]

/-- Witness for C10 at a concrete environment, blocked and admitted referers. -/
theorem C10_unset_referers_blocks_nonempty_witness :
    loadConfigFromEnv ⟨"d", "k", "p", "t", ""⟩ = some ⟨"d", "k", "p", "t", [""]⟩ ∧
    mailHandler (some ⟨"d", "k", "p", "t", [""]⟩) "https://site.example/" none
        (fun _ _ _ _ => true) = (forbiddenResponse, []) ∧
    mailHandler (some ⟨"d", "k", "p", "t", [""]⟩) "" none (fun _ _ _ _ => true)
      = handleDecoded ⟨"d", "k", "p", "t", [""]⟩ none (fun _ _ _ _ => true) :=
  ⟨(C10_unset_referers_blocks_nonempty ⟨"d", "k", "p", "t", ""⟩ "" none
      (fun _ _ _ _ => true) rfl (by decide) (by decide) (by decide) (by decide)).1,
   (C10_unset_referers_blocks_nonempty ⟨"d", "k", "p", "t", ""⟩ "https://site.example/" none
      (fun _ _ _ _ => true) rfl (by decide) (by decide) (by decide) (by decide)).2.1
     (by decide),
   (C10_unset_referers_blocks_nonempty ⟨"d", "k", "p", "t", ""⟩ "" none
      (fun _ _ _ _ => true) rfl (by decide) (by decide) (by decide) (by decide)).2.2 rfl⟩

end GoMail
